import Mathlib

/-!
Verification development for the SDF collision simulation repository.

The C++ sources (bvh.cpp, sdf.cpp, simulation.cpp, collision_object.cpp,
particle.cpp, mesh.cpp) are shallowly embedded below.  `float` arithmetic is
modelled by exact real arithmetic (`ℝ`); `glm::vec3` by `Vec3`;
`std::numeric_limits<float>::max()` by the constant `floatMax` (the exact
value of FLT_MAX).  Fallible operations return `Option`.  Mutation of C++
objects is modelled by explicit state passing: a function that mutates an
object returns the updated record.
-/

noncomputable section

/-- Model of `glm::vec3` (three `float` components, modelled exactly in `ℝ`). -/
structure Vec3 where
  x : ℝ
  y : ℝ
  z : ℝ

@[ext] theorem Vec3.ext' {a b : Vec3} (hx : a.x = b.x) (hy : a.y = b.y)
    (hz : a.z = b.z) : a = b := by
  cases a; cases b; simp_all

instance : Zero Vec3 := ⟨⟨0, 0, 0⟩⟩

instance : Add Vec3 := ⟨fun a b => ⟨a.x + b.x, a.y + b.y, a.z + b.z⟩⟩

instance : Sub Vec3 := ⟨fun a b => ⟨a.x - b.x, a.y - b.y, a.z - b.z⟩⟩

instance : Neg Vec3 := ⟨fun a => ⟨-a.x, -a.y, -a.z⟩⟩

instance : SMul ℝ Vec3 := ⟨fun r a => ⟨r * a.x, r * a.y, r * a.z⟩⟩

@[simp] theorem Vec3.zero_x : (0 : Vec3).x = 0 := rfl
@[simp] theorem Vec3.zero_y : (0 : Vec3).y = 0 := rfl
@[simp] theorem Vec3.zero_z : (0 : Vec3).z = 0 := rfl
@[simp] theorem Vec3.add_x (a b : Vec3) : (a + b).x = a.x + b.x := rfl
@[simp] theorem Vec3.add_y (a b : Vec3) : (a + b).y = a.y + b.y := rfl
@[simp] theorem Vec3.add_z (a b : Vec3) : (a + b).z = a.z + b.z := rfl
@[simp] theorem Vec3.sub_x (a b : Vec3) : (a - b).x = a.x - b.x := rfl
@[simp] theorem Vec3.sub_y (a b : Vec3) : (a - b).y = a.y - b.y := rfl
@[simp] theorem Vec3.sub_z (a b : Vec3) : (a - b).z = a.z - b.z := rfl
@[simp] theorem Vec3.neg_x (a : Vec3) : (-a).x = -a.x := rfl
@[simp] theorem Vec3.neg_y (a : Vec3) : (-a).y = -a.y := rfl
@[simp] theorem Vec3.neg_z (a : Vec3) : (-a).z = -a.z := rfl
@[simp] theorem Vec3.smul_x (r : ℝ) (a : Vec3) : (r • a).x = r * a.x := rfl
@[simp] theorem Vec3.smul_y (r : ℝ) (a : Vec3) : (r • a).y = r * a.y := rfl
@[simp] theorem Vec3.smul_z (r : ℝ) (a : Vec3) : (r • a).z = r * a.z := rfl
@[simp] theorem Vec3.mk_x (a b c : ℝ) : (Vec3.mk a b c).x = a := rfl
@[simp] theorem Vec3.mk_y (a b c : ℝ) : (Vec3.mk a b c).y = b := rfl
@[simp] theorem Vec3.mk_z (a b c : ℝ) : (Vec3.mk a b c).z = c := rfl

/-- `glm::dot`. -/
def Vec3.dot (a b : Vec3) : ℝ := a.x * b.x + a.y * b.y + a.z * b.z

/-- `glm::cross`. -/
def Vec3.cross (a b : Vec3) : Vec3 :=
  ⟨a.y * b.z - a.z * b.y, a.z * b.x - a.x * b.z, a.x * b.y - a.y * b.x⟩

/-- Componentwise `glm::min`. -/
def Vec3.compMin (a b : Vec3) : Vec3 := ⟨min a.x b.x, min a.y b.y, min a.z b.z⟩

/-- Componentwise `glm::max`. -/
def Vec3.compMax (a b : Vec3) : Vec3 := ⟨max a.x b.x, max a.y b.y, max a.z b.z⟩

/-- Componentwise `glm::clamp(v, lo, hi)` (i.e. `min(max(v, lo), hi)`). -/
def Vec3.clampV (v lo hi : Vec3) : Vec3 := (v.compMax lo).compMin hi

/-- Componentwise vector product (`glm::vec3 * glm::vec3`). -/
def Vec3.hadamard (a b : Vec3) : Vec3 := ⟨a.x * b.x, a.y * b.y, a.z * b.z⟩

/-- `glm::length` (Euclidean norm). -/
def Vec3.length (a : Vec3) : ℝ := Real.sqrt (a.dot a)

/-- `glm::normalize` (division of the vector by its norm). -/
def Vec3.normalize (a : Vec3) : Vec3 := (a.length)⁻¹ • a

/-- `glm::vec3::operator[]` — component selection by axis index 0/1/2. -/
def Vec3.comp (a : Vec3) (axis : ℕ) : ℝ :=
  if axis = 0 then a.x else if axis = 1 then a.y else a.z

/-- Scalar `glm::clamp(v, lo, hi)`. -/
def clampR (v lo hi : ℝ) : ℝ := min (max v lo) hi

/-- Exact value of `std::numeric_limits<float>::max()` (2^128 − 2^104). -/
def floatMax : ℝ := 340282346638528859811704183484516925440

/-- `Triangle` from mesh.h: three vertices and a face normal. -/
structure Triangle where
  v0 : Vec3
  v1 : Vec3
  v2 : Vec3
  normal : Vec3

instance : Inhabited Triangle := ⟨⟨0, 0, 0, 0⟩⟩

/-- `SDF::pointToTriangleDistance` from sdf.cpp (the identical code is inlined
in the leaf scan of `BVH::findClosestDistanceRecursive` in bvh.cpp):
barycentric-region closest point on the triangle, then Euclidean distance. -/
def pointToTriangleDistance (point : Vec3) (tri : Triangle) : ℝ :=
  let edge0 := tri.v1 - tri.v0
  let edge1 := tri.v2 - tri.v0
  let v0 := tri.v0 - point
  let a := Vec3.dot edge0 edge0
  let b := Vec3.dot edge0 edge1
  let c := Vec3.dot edge1 edge1
  let d := Vec3.dot edge0 v0
  let e := Vec3.dot edge1 v0
  let det := a * c - b * b
  let s := b * e - c * d
  let t := b * d - a * e
  let st : ℝ × ℝ :=
    if s + t < det then
      if s < 0 then
        if t < 0 then
          if d < 0 then (clampR (-d / a) 0 1, 0)
          else (0, clampR (-e / c) 0 1)
        else (0, clampR (-e / c) 0 1)
      else if t < 0 then (clampR (-d / a) 0 1, 0)
      else (s * (1 / det), t * (1 / det))
    else
      if s < 0 then
        let tmp0 := b + d
        let tmp1 := c + e
        if tmp0 < tmp1 then
          let numer := tmp1 - tmp0
          let denom := a - 2 * b + c
          let s' := clampR (numer / denom) 0 1
          (s', 1 - s')
        else (0, clampR (-e / c) 0 1)
      else if t < 0 then
        if b + e < a + d then
          let numer := c + e - b - d
          let denom := a - 2 * b + c
          let s' := clampR (numer / denom) 0 1
          (s', 1 - s')
        else (clampR (-d / a) 0 1, 0)
      else
        let numer := c + e - b - d
        let denom := a - 2 * b + c
        let s' := clampR (numer / denom) 0 1
        (s', 1 - s')
  let closest := tri.v0 + st.1 • edge0 + st.2 • edge1
  Vec3.length (point - closest)

/-- `BVHNode` from bvh.h: either a leaf carrying triangle indices or an inner
node with two children; every node stores its AABB. -/
inductive BVHNode where
  | leaf (minBounds maxBounds : Vec3) (triangleIndices : List ℕ)
  | node (minBounds maxBounds : Vec3) (left right : BVHNode)

/-- The node's `minBounds` field. -/
def BVHNode.minB : BVHNode → Vec3
  | .leaf mn _ _ => mn
  | .node mn _ _ _ => mn

/-- The node's `maxBounds` field. -/
def BVHNode.maxB : BVHNode → Vec3
  | .leaf _ mx _ => mx
  | .node _ mx _ _ => mx

/-- `BVH::computeCentroid`: arithmetic mean of the three vertices. -/
def computeCentroid (t : Triangle) : Vec3 := (1 / 3 : ℝ) • (t.v0 + t.v1 + t.v2)

/-- The AABB computation at the head of `BVH::buildRecursive`: componentwise
extremum over every vertex of every indexed triangle, starting from
`(+FLT_MAX, lowest)`. -/
def nodeBounds (triangles : List Triangle) (indices : List ℕ) : Vec3 × Vec3 :=
  indices.foldl
    (fun bs i =>
      let tri := triangles.getD i default
      [tri.v0, tri.v1, tri.v2].foldl
        (fun bs2 v => (bs2.1.compMin v, bs2.2.compMax v)) bs)
    (⟨floatMax, floatMax, floatMax⟩, ⟨-floatMax, -floatMax, -floatMax⟩)

/-- `BVH::buildRecursive` from bvh.cpp: compute bounds; leaf when at most 4
triangles or depth exceeds 20; otherwise sort the indices by triangle centroid
along the longest axis (the C++ uses `std::sort` with a strict comparator,
whose result on ties is unspecified; `mergeSort` with the non-strict key order
realises one such result), split at the median and recurse. -/
def buildRecursive (triangles : List Triangle) (indices : List ℕ)
    (depth : ℕ) : BVHNode :=
  let bounds := nodeBounds triangles indices
  if indices.length ≤ 4 ∨ 20 < depth then
    .leaf bounds.1 bounds.2 indices
  else
    let extent := bounds.2 - bounds.1
    let axis0 : ℕ := if extent.x < extent.y then 1 else 0
    let axis : ℕ := if Vec3.comp extent axis0 < extent.z then 2 else axis0
    let sorted := indices.mergeSort (fun i j =>
      decide (Vec3.comp (computeCentroid (triangles.getD i default)) axis ≤
        Vec3.comp (computeCentroid (triangles.getD j default)) axis))
    let mid := indices.length / 2
    .node bounds.1 bounds.2
      (buildRecursive triangles (sorted.take mid) (depth + 1))
      (buildRecursive triangles (sorted.drop mid) (depth + 1))
termination_by 21 - depth
decreasing_by
  all_goals
    rename_i h
    rw [not_or] at h
    omega

/-- `BVH` from bvh.h: the (possibly absent) root node. -/
structure BVH where
  root : Option BVHNode

/-- `BVH::build`: builds the tree over the index list `[0, n)`. -/
def BVH.build (triangles : List Triangle) : BVH :=
  ⟨some (buildRecursive triangles (List.range triangles.length) 0)⟩

/-- `BVH::pointToAABBDistance`: distance from the point to its componentwise
clamp into the box. -/
def pointToAABBDistance (point minBounds maxBounds : Vec3) : ℝ :=
  Vec3.length (point - Vec3.clampV point minBounds maxBounds)

/-- `BVH::findClosestDistanceRecursive` from bvh.cpp.  The C++ threads
`bestDistance` by mutable reference; here the pair `(return value, updated
bestDistance)` is returned.  The leaf scan inlines the same barycentric
point-triangle code as `pointToTriangleDistance`, preceded by the
bounding-sphere quick reject (centroid, radius `0.6 * maxEdgeLength`). -/
def findClosestDistanceRecursive (point : Vec3) (triangles : List Triangle) :
    BVHNode → ℝ → ℝ × ℝ
  | .leaf mn mx idxs, bestDistance =>
    if bestDistance ≤ pointToAABBDistance point mn mx then
      (floatMax, bestDistance)
    else
      let minDist := idxs.foldl
        (fun acc i =>
          let tri := triangles.getD i default
          let center := (1 / 3 : ℝ) • (tri.v0 + tri.v1 + tri.v2)
          let maxEdge := max (max (Vec3.length (tri.v1 - tri.v0))
            (Vec3.length (tri.v2 - tri.v1))) (Vec3.length (tri.v0 - tri.v2))
          let sphereDist := Vec3.length (point - center) - maxEdge * (6 / 10)
          if acc ≤ sphereDist then acc
          else min acc (pointToTriangleDistance point tri))
        bestDistance
      (minDist, min bestDistance minDist)
  | .node mn mx l r, bestDistance =>
    if bestDistance ≤ pointToAABBDistance point mn mx then
      (floatMax, bestDistance)
    else
      let leftAABBDist := pointToAABBDistance point l.minB l.maxB
      let rightAABBDist := pointToAABBDistance point r.minB r.maxB
      if leftAABBDist ≤ rightAABBDist then
        let resL :=
          if leftAABBDist < bestDistance then
            findClosestDistanceRecursive point triangles l bestDistance
          else (floatMax, bestDistance)
        let resR :=
          if rightAABBDist < resL.2 then
            findClosestDistanceRecursive point triangles r resL.2
          else (floatMax, resL.2)
        (min resL.1 resR.1, resR.2)
      else
        let resR :=
          if rightAABBDist < bestDistance then
            findClosestDistanceRecursive point triangles r bestDistance
          else (floatMax, bestDistance)
        let resL :=
          if leftAABBDist < resR.2 then
            findClosestDistanceRecursive point triangles l resR.2
          else (floatMax, resR.2)
        (min resL.1 resR.1, resL.2)

/-- `BVH::findClosestDistance`: FLT_MAX when no root, else run the recursion
with `bestDistance = FLT_MAX` and return its value. -/
def BVH.findClosestDistance (point : Vec3) (triangles : List Triangle)
    (bvh : BVH) : ℝ :=
  match bvh.root with
  | none => floatMax
  | some root => (findClosestDistanceRecursive point triangles root floatMax).1

/-- `BVH::rayAABBIntersect` (slab test).  Note: the C++ computes
`invDir = 1/direction` in IEEE floats, where a zero component yields ±∞; in
`ℝ`, `1/0 = 0`.  The only claim that touches this function relates two runs of
the very same embedded function, so this modelling choice cancels out. -/
def rayAABBIntersect (origin direction minBounds maxBounds : Vec3) : Prop :=
  let invDir : Vec3 := ⟨1 / direction.x, 1 / direction.y, 1 / direction.z⟩
  let t1 := Vec3.hadamard (minBounds - origin) invDir
  let t2 := Vec3.hadamard (maxBounds - origin) invDir
  let tmin := Vec3.compMin t1 t2
  let tmax := Vec3.compMax t1 t2
  let tNear := max (max tmin.x tmin.y) tmin.z
  let tFar := min (min tmax.x tmax.y) tmax.z
  tNear ≤ tFar ∧ 0 ≤ tFar

instance (origin direction minBounds maxBounds : Vec3) :
    Decidable (rayAABBIntersect origin direction minBounds maxBounds) := by
  unfold rayAABBIntersect
  exact instDecidableAnd

/-- `BVH::countIntersectionsRecursive` from bvh.cpp: prune by the slab test,
then at leaves count Möller–Trumbore hits with `t > 1e-7`. -/
def countIntersectionsRecursive (point direction : Vec3)
    (triangles : List Triangle) : BVHNode → ℕ
  | .leaf mn mx idxs =>
    if rayAABBIntersect point direction mn mx then
      idxs.foldl
        (fun acc i =>
          let tri := triangles.getD i default
          let edge1 := tri.v1 - tri.v0
          let edge2 := tri.v2 - tri.v0
          let h := Vec3.cross direction edge2
          let a := Vec3.dot edge1 h
          if -(1 / 10000000) < a ∧ a < 1 / 10000000 then acc
          else
            let f := 1 / a
            let s := point - tri.v0
            let u := f * Vec3.dot s h
            if u < 0 ∨ 1 < u then acc
            else
              let q := Vec3.cross s edge1
              let v := f * Vec3.dot direction q
              if v < 0 ∨ 1 < u + v then acc
              else
                let t := f * Vec3.dot edge2 q
                if 1 / 10000000 < t then acc + 1 else acc)
        0
    else 0
  | .node mn mx l r =>
    if rayAABBIntersect point direction mn mx then
      countIntersectionsRecursive point direction triangles l +
        countIntersectionsRecursive point direction triangles r
    else 0

/-- `BVH::countIntersections`: 0 when no root. -/
def BVH.countIntersections (point direction : Vec3)
    (triangles : List Triangle) (bvh : BVH) : ℕ :=
  match bvh.root with
  | none => 0
  | some root => countIntersectionsRecursive point direction triangles root

/-- The data of class `Mesh` consumed by the SDF build: the triangle list and
the AABB computed by `Mesh::computeBounds`. -/
structure MeshData where
  triangles : List Triangle
  minBounds : Vec3
  maxBounds : Vec3

/-- The state of class `SDF` after `generateFromMesh`: resolution, the linear
scalar grid (`std::vector<float>` modelled as `ℕ → ℝ`, zero-initialised by
`resize`), padded bounds and cell size. -/
structure SDFGrid where
  resolution : ℕ
  data : ℕ → ℝ
  minBounds : Vec3
  maxBounds : Vec3
  cellSize : Vec3

/-- `SDF::getIndex`: linear voxel index `z·R² + y·R + x`. -/
def getIndex (x y z resolution : ℕ) : ℕ :=
  z * resolution * resolution + y * resolution + x

/-- `SDF::generateFromMesh` from sdf.cpp: pad the mesh AABB by 10% per side,
compute the cell size, build the BVH, then for every voxel (z outer, y middle,
x inner) store the BVH closest distance from the voxel's world position,
negated when the +X ray parity says the voxel is inside. -/
def generateFromMesh (mesh : MeshData) (resolution : ℕ) : SDFGrid :=
  let padding := (1 / 10 : ℝ) • (mesh.maxBounds - mesh.minBounds)
  let minB := mesh.minBounds - padding
  let maxB := mesh.maxBounds + padding
  let cellSize := ((resolution : ℝ) - 1)⁻¹ • (maxB - minB)
  let bvh := BVH.build mesh.triangles
  let voxel : ℕ → ℕ → ℕ → ℝ := fun x y z =>
    let worldPos := minB + Vec3.hadamard ⟨(x : ℝ), (y : ℝ), (z : ℝ)⟩ cellSize
    let minDistance := BVH.findClosestDistance worldPos mesh.triangles bvh
    let intersections :=
      BVH.countIntersections worldPos ⟨1, 0, 0⟩ mesh.triangles bvh
    if intersections % 2 = 1 then -minDistance else minDistance
  let data := (List.range resolution).foldl
    (fun dz z =>
      (List.range resolution).foldl
        (fun dy y =>
          (List.range resolution).foldl
            (fun dx x => Function.update dx (getIndex x y z resolution)
              (voxel x y z))
            dy)
        dz)
    (fun _ => 0)
  ⟨resolution, data, minB, maxB, cellSize⟩

/-- Class `Particle` from particle.h: the fields used by the simulation. -/
structure Particle where
  position : Vec3
  velocity : Vec3
  size : ℝ
  mass : ℝ
  inverseMass : ℝ

/-- `glm::quat` — carried by `CollisionObject` but never computed with in the
functions the claims concern. -/
structure Quat where
  w : ℝ
  x : ℝ
  y : ℝ
  z : ℝ

/-- Class `CollisionObject` (collision_object.h / collision_object.cpp).  The
mesh/SDF internals behind `getSignedDistance` are abstracted into the function
field `sdfAt` (the simulation code only observes sampled values, and both
samplings in `resolveObjectCollision` happen before any field of the object is
mutated); the `meshLoaded`/`sdfGenerated` flags back `isValid`. -/
structure CollisionObject where
  position : Vec3
  rotation : Quat
  scale : Vec3
  velocity : Vec3
  mass : ℝ
  inverseMass : ℝ
  transformDirty : Bool
  meshLoaded : Bool
  sdfGenerated : Bool
  sdfAt : Vec3 → ℝ

/-- `CollisionObject::isValid`: `meshLoaded && sdfGenerated`. -/
def CollisionObject.isValid (o : CollisionObject) : Bool :=
  o.meshLoaded && o.sdfGenerated

/-- Modelled from the spec: `CollisionObject::isStatic` is declared only in a
header revision missing from the sources (its callers and the field updates in
collision_object.cpp are present).  Per the spec, `inverseMass = 0` is the
static sentinel (`w = 0` means infinite mass), so `isStatic` holds exactly when
the cached inverse mass is zero. -/
def CollisionObject.isStatic (o : CollisionObject) : Prop :=
  o.inverseMass = 0

instance (o : CollisionObject) : Decidable o.isStatic := by
  unfold CollisionObject.isStatic
  infer_instance

/-- `CollisionObject::setPosition`: assigns the position and marks the cached
transform dirty. -/
def CollisionObject.setPosition (o : CollisionObject) (p : Vec3) :
    CollisionObject :=
  { o with position := p, transformDirty := true }

/-- `CollisionObject::setVelocity`. -/
def CollisionObject.setVelocity (o : CollisionObject) (v : Vec3) :
    CollisionObject :=
  { o with velocity := v }

/-- `CollisionObject::setMass`: caches `1/mass` for positive mass, else the
static sentinel 0. -/
def CollisionObject.setMass (o : CollisionObject) (m : ℝ) : CollisionObject :=
  { o with mass := m, inverseMass := if 0 < m then m⁻¹ else 0 }

/-- `CollisionObject::updatePhysics` from collision_object.cpp: only when the
object is not static and `deltaTime > 0`, advance the position by
`velocity * deltaTime` (through `setPosition`). -/
def CollisionObject.updatePhysics (o : CollisionObject) (deltaTime : ℝ) :
    CollisionObject :=
  if ¬o.isStatic ∧ 0 < deltaTime then
    o.setPosition (o.position + deltaTime • o.velocity)
  else o

/-- `Simulation::reflectVelocity`: `v' = v − 2 (v·n) n`. -/
def reflectVelocity (velocity normal : Vec3) : Vec3 :=
  velocity - (2 * Vec3.dot velocity normal) • normal

/-- `Simulation::calculateCollisionResponse` from simulation.cpp (particle vs
collision object).  The C++ returns the new particle velocity and mutates the
object's velocity through `setVelocity`; here the pair
`(new particle velocity, new object velocity)` is returned. -/
def calculateCollisionResponse (particle : Particle) (object : CollisionObject)
    (normal : Vec3) : Vec3 × Vec3 :=
  if object.isStatic then
    (reflectVelocity particle.velocity normal, object.velocity)
  else
    let v1 := particle.velocity
    let v2 := object.velocity
    let relativeVelocity := v1 - v2
    let velocityAlongNormal := Vec3.dot relativeVelocity normal
    if 0 < velocityAlongNormal then (v1, v2)
    else
      let restitution : ℝ := 1
      let j := (-(1 + restitution) * velocityAlongNormal) /
        (particle.inverseMass + object.inverseMass)
      let impulse := j • normal
      (v1 + particle.inverseMass • impulse, v2 - object.inverseMass • impulse)

/-- The impulse update of §4.6 of the spec with the restitution coefficient as
an explicit parameter (the C++ paths inline it as the constant
`restitution`): `j = −(1+e)·vN/(wA+wB)`, `vA += j·wA·n`, `vB −= j·wB·n`. -/
def impulseNewVelocities (e w1 w2 : ℝ) (v1 v2 n : Vec3) : Vec3 × Vec3 :=
  let vN := Vec3.dot (v1 - v2) n
  let j := (-(1 + e) * vN) / (w1 + w2)
  (v1 + w1 • (j • n), v2 - w2 • (j • n))

/-- `Simulation::resolveObjectCollision` from simulation.cpp: separation
normal from the two centres (with the `+X` fallback for coincident centres),
penetration depth from the two SDF samples with the 0.05 default, position
correction by half the separation vector on each non-static object, then the
velocity phase: reflection off a static partner, otherwise the `e = 1`
impulse.  Returns the updated pair `(obj1, obj2)`. -/
def resolveObjectCollision (obj1 obj2 : CollisionObject)
    (pos1 pos2 : Vec3) : CollisionObject × CollisionObject :=
  let normal0 := pos2 - pos1
  let dist := Vec3.length normal0
  let normal := if dist < 1 / 1000 then (⟨1, 0, 0⟩ : Vec3)
    else Vec3.normalize normal0
  let dist1 := obj2.sdfAt pos1
  let dist2 := obj1.sdfAt pos2
  let depth1 : ℝ := if dist1 < 0 then max 0 (-dist1) else 0
  let depth2 : ℝ := if dist2 < 0 then max depth1 (-dist2) else depth1
  let penetrationDepth : ℝ := if depth2 = 0 then 1 / 20 else depth2
  let separation := max (1 / 50) (penetrationDepth * (6 / 5))
  let separationVector := (separation * (1 / 2)) • normal
  let obj1a := if ¬obj1.isStatic then obj1.setPosition (pos1 - separationVector)
    else obj1
  let obj2a := if ¬obj2.isStatic then obj2.setPosition (pos2 + separationVector)
    else obj2
  let v1 := obj1a.velocity
  let v2 := obj2a.velocity
  if obj1a.isStatic then
    (obj1a, obj2a.setVelocity (reflectVelocity v2 (-normal)))
  else if obj2a.isStatic then
    (obj1a.setVelocity (reflectVelocity v1 normal), obj2a)
  else
    let velocityAlongNormal := Vec3.dot (v1 - v2) normal
    let restitution : ℝ := 1
    let j := (-(1 + restitution) * velocityAlongNormal) /
      (obj1a.inverseMass + obj2a.inverseMass)
    let impulse := j • normal
    (obj1a.setVelocity (v1 + obj1a.inverseMass • impulse),
      obj2a.setVelocity (v2 - obj2a.inverseMass • impulse))

/-- One line of an OBJ file, as seen by `Mesh::loadOBJ` (particle.cpp) after
lexing: a `v` line carries the result of `iss >> x >> y >> z` (`none` when the
extraction fails), an `f` line carries the `std::stoi` result of each
component's pre-slash token (`none` when `stoi` throws), and every other
prefix is ignored. -/
inductive ObjLine where
  | vLine (coords : Option Vec3)
  | fLine (comps : List (Option ℤ))
  | other

/-- `Mesh::computeTriangleNormal`: normalised cross product of the edges. -/
def computeTriangleNormal (v0 v1 v2 : Vec3) : Vec3 :=
  Vec3.normalize (Vec3.cross (v1 - v0) (v2 - v0))

/-- The line-reading loop of `Mesh::loadOBJ`: collect vertices (a `v` line
that fails to parse is logged and skipped), and faces (a component whose
`stoi` throws aborts the load with `false`, modelled as `none`; each kept
component is the 1-indexed integer minus one; faces with fewer than three
components are dropped). -/
def parseObjLines : List ObjLine → Option (List Vec3 × List (List ℤ))
  | [] => some ([], [])
  | ObjLine.vLine none :: rest => parseObjLines rest
  | ObjLine.vLine (some c) :: rest =>
    (parseObjLines rest).map (fun vf => (c :: vf.1, vf.2))
  | ObjLine.fLine comps :: rest =>
    (comps.mapM id).bind (fun ks =>
      let faceIndices := ks.map (fun k => k - 1)
      if 3 ≤ faceIndices.length then
        (parseObjLines rest).map (fun vf => (vf.1, faceIndices :: vf.2))
      else parseObjLines rest)
  | ObjLine.other :: rest => parseObjLines rest

/-- The fan-triangulation loop of `Mesh::loadOBJ`: for `i ∈ [1, n−2]` build
the triangle `(face[0], face[i], face[i+1])`; an index outside
`[0, #vertices)` is a critical error (`false`, modelled as `none`). -/
def fanTriangles (vertices : List Vec3) (face : List ℤ) :
    Option (List Triangle) :=
  (List.range' 1 (face.length - 2)).mapM (fun i =>
    let idx0 := face.getD 0 0
    let idx1 := face.getD i 0
    let idx2 := face.getD (i + 1) 0
    if idx0 < 0 ∨ (vertices.length : ℤ) ≤ idx0 ∨
        idx1 < 0 ∨ (vertices.length : ℤ) ≤ idx1 ∨
        idx2 < 0 ∨ (vertices.length : ℤ) ≤ idx2 then
      none
    else
      let v0 := vertices.getD idx0.toNat 0
      let v1 := vertices.getD idx1.toNat 0
      let v2 := vertices.getD idx2.toNat 0
      some ⟨v0, v1, v2, computeTriangleNormal v0 v1 v2⟩)

/-- The face-conversion loop of `Mesh::loadOBJ` over all kept faces. -/
def facesToTriangles (vertices : List Vec3) :
    List (List ℤ) → Option (List Triangle)
  | [] => some []
  | face :: rest => do
    let tris ← fanTriangles vertices face
    let more ← facesToTriangles vertices rest
    pure (tris ++ more)

/-- `Mesh::loadOBJ` (particle.cpp): read all lines, then convert faces to
triangles; `none` models returning `false`. -/
def loadOBJ (lines : List ObjLine) : Option (List Triangle) :=
  match parseObjLines lines with
  | none => none
  | some (vertices, faces) => facesToTriangles vertices faces

/-- The number of successfully parsed `v` lines in the input. -/
def countVertices (lines : List ObjLine) : ℕ :=
  (lines.filter (fun l => match l with
    | ObjLine.vLine (some _) => true
    | _ => false)).length

/-- The `Simulation` state touched by `addCollisionObject`
(simulation.cpp). -/
structure SimulationState where
  boundsMin : Vec3
  boundsMax : Vec3
  collisionObjects : List CollisionObject

/-- `Simulation::addCollisionObject`: append the object only when the pointer
is non-null (`some`) and the object `isValid()`. -/
def addCollisionObject (sim : SimulationState)
    (obj : Option CollisionObject) : SimulationState :=
  match obj with
  | some o =>
    if o.isValid then
      { sim with collisionObjects := sim.collisionObjects ++ [o] }
    else sim
  | none => sim

/-- Spec-side brute force of P2: the minimum over all triangles of the
point-to-triangle distance (folded against FLT_MAX). -/
def bruteForceMinDistance (point : Vec3) (triangles : List Triangle) : ℝ :=
  triangles.foldl (fun acc t => min acc (pointToTriangleDistance point t))
    floatMax

/-- Concrete triangle at exact distance 1/10 from the origin (its closest
point is the interior point `(1/10, 0, 0)`); edge lengths 8, 5, 5 and
centroid `(1/10, 0, 0)`. -/
def triTenth : Triangle :=
  ⟨⟨1 / 10, 4, -1⟩, ⟨1 / 10, -4, -1⟩, ⟨1 / 10, 0, 2⟩, ⟨-1, 0, 0⟩⟩

/-- Concrete thin isosceles triangle with a vertex at the origin; edge lengths
13, 10, 13 and centroid `(8, 0, 0)`, so the origin lies a distance 8 from the
centroid while `0.6 · maxEdge = 7.8 < 8`. -/
def triThin : Triangle :=
  ⟨⟨0, 0, 0⟩, ⟨12, 5, 0⟩, ⟨12, -5, 0⟩, ⟨0, 0, -1⟩⟩

/-- Concrete dynamic collision object (mass 1) used by the response claims. -/
def objDynamicA : CollisionObject :=
  ⟨0, ⟨1, 0, 0, 0⟩, ⟨1, 1, 1⟩, 0, 1, 1, false, true, true, fun _ => 1⟩

/-- Concrete dynamic object at `(3,0,0)` moving in `−X`, with an SDF sample of
`−1/100` everywhere (slight penetration reading). -/
def objDynamicB : CollisionObject :=
  ⟨⟨3, 0, 0⟩, ⟨1, 0, 0, 0⟩, ⟨1, 1, 1⟩, ⟨-1, 0, 0⟩, 1, 1, false, true, true,
    fun _ => -(1 / 100)⟩

/-- Concrete dynamic object at the origin moving in `+X`. -/
def objDynamicC : CollisionObject :=
  ⟨0, ⟨1, 0, 0, 0⟩, ⟨1, 1, 1⟩, ⟨1, 0, 0⟩, 1, 1, false, true, true, fun _ => 1⟩

/-- Concrete static (mass 0) collision object. -/
def objStaticA : CollisionObject :=
  ⟨0, ⟨1, 0, 0, 0⟩, ⟨1, 1, 1⟩, 0, 0, 0, false, true, true, fun _ => 1⟩

/-- Concrete invalid collision object (mesh not loaded). -/
def objInvalidA : CollisionObject :=
  ⟨0, ⟨1, 0, 0, 0⟩, ⟨1, 1, 1⟩, 0, 1, 1, false, false, false, fun _ => 1⟩

/-- Concrete particle of mass 1 moving in `−X`. -/
def particleA : Particle := ⟨0, ⟨-1, 0, 0⟩, 1 / 20, 1, 1⟩

/-- Concrete particle of mass 1 moving in `+X` (separating from an object
whose outward normal is `+X`). -/
def particleB : Particle := ⟨0, ⟨1, 0, 0⟩, 1 / 20, 1, 1⟩

/-- Concrete empty simulation state over the unit box. -/
def simStateA : SimulationState := ⟨⟨-1, -1, -1⟩, ⟨1, 1, 1⟩, []⟩

/-- Concrete mesh (two triangles) for the SDF-build witness. -/
def meshA : MeshData := ⟨[triTenth, triThin], ⟨0, -5, -1⟩, ⟨12, 5, 2⟩⟩

/-- The collision normal of `Simulation::resolveObjectCollision`: from centre
1 to centre 2, with the `+X` fallback when the centres (almost) coincide. -/
def collisionNormal (pos1 pos2 : Vec3) : Vec3 :=
  if Vec3.length (pos2 - pos1) < 1 / 1000 then ⟨1, 0, 0⟩
  else Vec3.normalize (pos2 - pos1)

/-- The penetration depth actually computed by `resolveObjectCollision`:
`max(0, −d1, −d2)` when that is non-zero, else the 0.05 default. -/
def penetrationDepthOf (d1 d2 : ℝ) : ℝ :=
  if max 0 (max (-d1) (-d2)) = 0 then 1 / 20 else max 0 (max (-d1) (-d2))

/-- The separation magnitude of `resolveObjectCollision`:
`max(0.02, depth · 1.2)`. -/
def separationOf (d1 d2 : ℝ) : ℝ :=
  max (1 / 50) (penetrationDepthOf d1 d2 * (6 / 5))

/-- The penetration depth exactly as the C4 claim words it:
`max(0, −d1, −d2, 0.05)`. -/
def claimDepth (d1 d2 : ℝ) : ℝ := max (max 0 (-d1)) (max (-d2) (1 / 20))

/-- The separation magnitude exactly as the C4 claim words it:
`max(0.02, 1.2 · claimDepth)`. -/
def claimSeparation (d1 d2 : ℝ) : ℝ :=
  max (1 / 50) (claimDepth d1 d2 * (6 / 5))

/-! ## Theorems -/

/-- Helper: the two sequential `if (dist < 0) depth = max(depth, −dist)` steps
of `resolveObjectCollision` compute `max(0, −d1, −d2)`. -/
theorem depth_chain (d1 d2 : ℝ) :
    (if d2 < 0 then max (if d1 < 0 then max 0 (-d1) else 0) (-d2)
     else if d1 < 0 then max 0 (-d1) else 0) = max 0 (max (-d1) (-d2)) := by
  by_cases h1 : d1 < 0 <;> by_cases h2 : d2 < 0
  · rw [if_pos h2, if_pos h1, max_assoc]
  · rw [if_neg h2, if_pos h1, ← max_assoc,
      max_eq_left (le_trans (by linarith) (le_max_left 0 (-d1)))]
  · rw [if_pos h2, if_neg h1, ← max_assoc,
      max_eq_left (show -d1 ≤ 0 by linarith)]
  · rw [if_neg h2, if_neg h1,
      max_eq_left (max_le (by linarith) (by linarith))]

/-- Helper: folds the inline normal computation into `collisionNormal`. -/
theorem collisionNormal_eq (pos1 pos2 : Vec3) :
    (if Vec3.length (pos2 - pos1) < 1 / 1000 then (⟨1, 0, 0⟩ : Vec3)
     else Vec3.normalize (pos2 - pos1)) = collisionNormal pos1 pos2 := rfl

/-- Helper: folds the inline separation computation into `separationOf`. -/
theorem separation_fold (d1 d2 : ℝ) :
    max (1 / 50) ((if max 0 (max (-d1) (-d2)) = 0 then 1 / 20
      else max 0 (max (-d1) (-d2))) * (6 / 5)) = separationOf d1 d2 := rfl

/-- Helper: an equal-and-opposite impulse scaled by the inverse masses cancels
from the mass-weighted velocity sum. -/
theorem momentum_cancel (m1 m2 j : ℝ) (v1 v2 n : Vec3) (h1 : m1 ≠ 0)
    (h2 : m2 ≠ 0) :
    m1 • (v1 + m1⁻¹ • (j • n)) + m2 • (v2 - m2⁻¹ • (j • n)) =
      m1 • v1 + m2 • v2 := by
  ext <;> simp <;> field_simp <;> ring

/-- C2 counterexample: with a dynamic collision object, the particle-vs-mesh
response does not match the `e = 0.8` impulse formula — at this input the code
(using `e = 1`) yields particle velocity `(0,0,0)` while the `e = 0.8` formula
yields `(−1/10, 0, 0)`. -/
theorem C2_counterexample :
    ¬objDynamicA.isStatic ∧
    calculateCollisionResponse particleA objDynamicA ⟨1, 0, 0⟩ ≠
      impulseNewVelocities (8 / 10) particleA.inverseMass
        objDynamicA.inverseMass particleA.velocity objDynamicA.velocity
        ⟨1, 0, 0⟩ := by
  constructor
  · simp [CollisionObject.isStatic, objDynamicA]
  · intro h
    have hx := congrArg (fun q => q.1.x) h
    norm_num [calculateCollisionResponse, impulseNewVelocities,
      CollisionObject.isStatic, objDynamicA, particleA, reflectVelocity,
      Vec3.dot] at hx

/-- C2 (amended): in the particle-vs-mesh response, a static object gives pure
reflection of the particle velocity, and a dynamic object gives the impulse
update with restitution `e = 1` (not 0.8) whenever the bodies are not
separating, with no change when they are. -/
theorem C2_particle_response_restitution (p : Particle) (o : CollisionObject)
    (n : Vec3) :
    calculateCollisionResponse p o n =
      if o.isStatic then (reflectVelocity p.velocity n, o.velocity)
      else if 0 < Vec3.dot (p.velocity - o.velocity) n then
        (p.velocity, o.velocity)
      else impulseNewVelocities 1 p.inverseMass o.inverseMass p.velocity
        o.velocity n := by
  unfold calculateCollisionResponse impulseNewVelocities
  by_cases h1 : o.isStatic
  · simp [h1]
  · by_cases h2 : 0 < Vec3.dot (p.velocity - o.velocity) n <;> simp [h1, h2]

/-- C3 counterexample: two dynamic objects whose relative velocity along the
collision normal is positive, yet `resolveObjectCollision` changes the first
object's velocity (the object-vs-object path has no separation check). -/
theorem C3_counterexample :
    ¬objDynamicC.isStatic ∧ ¬objDynamicB.isStatic ∧
    0 < Vec3.dot (objDynamicC.velocity - objDynamicB.velocity)
      (Vec3.normalize (objDynamicB.position - objDynamicC.position)) ∧
    (resolveObjectCollision objDynamicC objDynamicB objDynamicC.position
      objDynamicB.position).1.velocity ≠ objDynamicC.velocity := by
  have h9 : Real.sqrt 9 = 3 := by
    rw [show (9 : ℝ) = 3 ^ 2 by norm_num, Real.sqrt_sq (by norm_num)]
  refine ⟨?_, ?_, ?_, ?_⟩
  · simp [CollisionObject.isStatic, objDynamicC]
  · simp [CollisionObject.isStatic, objDynamicB]
  · norm_num [Vec3.dot, Vec3.normalize, Vec3.length, objDynamicB, objDynamicC,
      h9]
  · intro h
    have hx := congrArg Vec3.x h
    norm_num [resolveObjectCollision, CollisionObject.isStatic,
      CollisionObject.setPosition, CollisionObject.setVelocity,
      reflectVelocity, Vec3.normalize, Vec3.length, Vec3.dot, objDynamicB,
      objDynamicC, h9] at hx

/-- C3 (amended): the particle-vs-object path returns both velocities
unchanged when the object is dynamic and `vN > 0`, but the static-object
branch reflects unconditionally, and the dynamic-dynamic object-vs-object
path applies the `e = 1` impulse regardless of the sign of `vN`. -/
theorem C3_separating_behaviour (p : Particle) (o : CollisionObject) (n : Vec3)
    (obj1 obj2 : CollisionObject) (pos1 pos2 : Vec3) :
    (¬o.isStatic → 0 < Vec3.dot (p.velocity - o.velocity) n →
      calculateCollisionResponse p o n = (p.velocity, o.velocity)) ∧
    (o.isStatic → calculateCollisionResponse p o n =
      (reflectVelocity p.velocity n, o.velocity)) ∧
    (¬obj1.isStatic → ¬obj2.isStatic →
      ((resolveObjectCollision obj1 obj2 pos1 pos2).1.velocity,
        (resolveObjectCollision obj1 obj2 pos1 pos2).2.velocity) =
        impulseNewVelocities 1 obj1.inverseMass obj2.inverseMass
          obj1.velocity obj2.velocity (collisionNormal pos1 pos2)) := by
  refine ⟨fun h1 h2 => ?_, fun h1 => ?_, fun h1 h2 => ?_⟩
  · simp [calculateCollisionResponse, h1, h2]
  · simp [calculateCollisionResponse, h1]
  · have h1' : ¬obj1.inverseMass = 0 := h1
    have h2' : ¬obj2.inverseMass = 0 := h2
    simp [resolveObjectCollision, impulseNewVelocities, collisionNormal,
      CollisionObject.isStatic, CollisionObject.setPosition,
      CollisionObject.setVelocity, h1', h2']

/-- C3 witness: the amended statements applied at concrete inputs — a
separating particle vs dynamic object keeps both velocities, and the
dynamic-dynamic path equals the `e = 1` impulse update. -/
theorem C3_separating_behaviour_witness :
    calculateCollisionResponse particleB objDynamicA ⟨1, 0, 0⟩ =
      (particleB.velocity, objDynamicA.velocity) ∧
    ((resolveObjectCollision objDynamicC objDynamicB objDynamicC.position
        objDynamicB.position).1.velocity,
      (resolveObjectCollision objDynamicC objDynamicB objDynamicC.position
        objDynamicB.position).2.velocity) =
      impulseNewVelocities 1 objDynamicC.inverseMass objDynamicB.inverseMass
        objDynamicC.velocity objDynamicB.velocity
        (collisionNormal objDynamicC.position objDynamicB.position) :=
  ⟨(C3_separating_behaviour particleB objDynamicA ⟨1, 0, 0⟩ objDynamicC
      objDynamicB 0 0).1
    (by simp [CollisionObject.isStatic, objDynamicA])
    (by norm_num [Vec3.dot, particleB, objDynamicA]),
  (C3_separating_behaviour particleB objDynamicA ⟨1, 0, 0⟩ objDynamicC
      objDynamicB objDynamicC.position objDynamicB.position).2.2
    (by simp [CollisionObject.isStatic, objDynamicC])
    (by simp [CollisionObject.isStatic, objDynamicB])⟩

/-- C4 counterexample: two dynamic objects where the code's applied
separation differs from the claim's `max(0, −dist1, −dist2, 0.05)` depth
formula — the SDF reads −1/100, so the code separates by `0.02/2 = 1/100` per
side while the claim demands `max(0.02, 1.2·0.05)/2 = 3/100`. -/
theorem C4_counterexample :
    ¬objDynamicC.isStatic ∧ ¬objDynamicB.isStatic ∧
    (resolveObjectCollision objDynamicC objDynamicB objDynamicC.position
      objDynamicB.position).1.position ≠
      objDynamicC.position -
        (claimSeparation (objDynamicB.sdfAt objDynamicC.position)
          (objDynamicC.sdfAt objDynamicB.position) * (1 / 2)) •
          collisionNormal objDynamicC.position objDynamicB.position := by
  have h9 : Real.sqrt 9 = 3 := by
    rw [show (9 : ℝ) = 3 ^ 2 by norm_num, Real.sqrt_sq (by norm_num)]
  refine ⟨?_, ?_, ?_⟩
  · simp [CollisionObject.isStatic, objDynamicC]
  · simp [CollisionObject.isStatic, objDynamicB]
  · intro h
    have hx := congrArg Vec3.x h
    norm_num [resolveObjectCollision, claimSeparation, claimDepth,
      collisionNormal, CollisionObject.isStatic, CollisionObject.setPosition,
      CollisionObject.setVelocity, reflectVelocity, Vec3.normalize,
      Vec3.length, Vec3.dot, objDynamicB, objDynamicC, h9] at hx

/-- C4 (amended): the mesh-mesh position correction moves every non-static
body by half of `max(0.02, 1.2·depth)` along the collision normal (also when
the partner is static), where `depth` is `max(0, −dist1, −dist2)` if that is
positive and `0.05` otherwise. -/
theorem C4_position_correction (obj1 obj2 : CollisionObject)
    (pos1 pos2 : Vec3) :
    (resolveObjectCollision obj1 obj2 pos1 pos2).1.position =
      (if obj1.isStatic then obj1.position
       else pos1 - (separationOf (obj2.sdfAt pos1) (obj1.sdfAt pos2) *
         (1 / 2)) • collisionNormal pos1 pos2) ∧
    (resolveObjectCollision obj1 obj2 pos1 pos2).2.position =
      (if obj2.isStatic then obj2.position
       else pos2 + (separationOf (obj2.sdfAt pos1) (obj1.sdfAt pos2) *
         (1 / 2)) • collisionNormal pos1 pos2) := by
  simp only [resolveObjectCollision, depth_chain, separation_fold,
    collisionNormal_eq, CollisionObject.isStatic]
  by_cases hs1 : obj1.inverseMass = 0 <;> by_cases hs2 : obj2.inverseMass = 0 <;>
    simp [hs1, hs2, CollisionObject.setPosition, CollisionObject.setVelocity]

/-- C7 counterexample: a non-static object stepped with `deltaTime = −1` does
not move to `position + velocity · deltaTime` — `updatePhysics` additionally
requires `deltaTime > 0` and leaves the position unchanged here. -/
theorem C7_counterexample :
    ¬objDynamicC.isStatic ∧
    (objDynamicC.updatePhysics (-1)).position ≠
      objDynamicC.position + (-1 : ℝ) • objDynamicC.velocity := by
  constructor
  · simp [CollisionObject.isStatic, objDynamicC]
  · intro h
    have hx := congrArg Vec3.x h
    norm_num [CollisionObject.updatePhysics, CollisionObject.isStatic,
      objDynamicC, CollisionObject.setPosition] at hx

/-- C7 (amended): `updatePhysics(dt)` advances the position by `velocity·dt`
exactly when the object is non-static and `dt > 0`, leaves it unchanged
otherwise, and never changes velocity, rotation, scale or (inverse) mass. -/
theorem C7_updatePhysics_characterisation (o : CollisionObject) (dt : ℝ) :
    (o.updatePhysics dt).position =
      (if ¬o.isStatic ∧ 0 < dt then o.position + dt • o.velocity
       else o.position) ∧
    (o.updatePhysics dt).velocity = o.velocity ∧
    (o.updatePhysics dt).rotation = o.rotation ∧
    (o.updatePhysics dt).scale = o.scale ∧
    (o.updatePhysics dt).mass = o.mass ∧
    (o.updatePhysics dt).inverseMass = o.inverseMass := by
  unfold CollisionObject.updatePhysics CollisionObject.setPosition
  by_cases h : ¬o.isStatic ∧ 0 < dt <;> simp [h]

/-- C10: `addCollisionObject` appends exactly the non-null valid objects,
leaves the simulation unchanged otherwise, and hence every stored object was
either already present or valid at insertion. -/
theorem C10_addCollisionObject_valid (sim : SimulationState)
    (o : CollisionObject) (oq : Option CollisionObject) :
    (addCollisionObject sim none = sim) ∧
    (o.isValid = true → (addCollisionObject sim (some o)).collisionObjects =
      sim.collisionObjects ++ [o]) ∧
    (o.isValid = false → addCollisionObject sim (some o) = sim) ∧
    (∀ x ∈ (addCollisionObject sim oq).collisionObjects,
      x ∈ sim.collisionObjects ∨ x.isValid = true) := by
  refine ⟨rfl, fun hv => ?_, fun hv => ?_, fun x hx => ?_⟩
  · simp [addCollisionObject, hv]
  · simp [addCollisionObject, hv]
  · match oq with
    | none => exact Or.inl hx
    | some o' =>
      by_cases hv : o'.isValid
      · simp [addCollisionObject, hv] at hx
        rcases hx with hx | hx
        · exact Or.inl hx
        · subst hx; exact Or.inr hv
      · simp [addCollisionObject, hv] at hx
        exact Or.inl hx

/-- C6: momentum conservation for two dynamic bodies — the particle-vs-object
path, the object-vs-object path, and the impulse formula for every restitution
`e ∈ [0,1]` all preserve the mass-weighted velocity sum, given consistent
cached inverse masses. -/
theorem C6_momentum_conservation (p : Particle) (o : CollisionObject)
    (n : Vec3) (obj1 obj2 : CollisionObject) (pos1 pos2 : Vec3)
    (e : ℝ) (m1 m2 : ℝ) (v1 v2 nn : Vec3)
    (hp : 0 < p.mass) (ho : 0 < o.mass)
    (hpw : p.inverseMass = p.mass⁻¹) (how : o.inverseMass = o.mass⁻¹)
    (h1 : 0 < obj1.mass) (h2 : 0 < obj2.mass)
    (h1w : obj1.inverseMass = obj1.mass⁻¹)
    (h2w : obj2.inverseMass = obj2.mass⁻¹)
    (he0 : 0 ≤ e) (he1 : e ≤ 1) (hm1 : 0 < m1) (hm2 : 0 < m2) :
    (p.mass • (calculateCollisionResponse p o n).1 +
      o.mass • (calculateCollisionResponse p o n).2 =
      p.mass • p.velocity + o.mass • o.velocity) ∧
    (obj1.mass • (resolveObjectCollision obj1 obj2 pos1 pos2).1.velocity +
      obj2.mass • (resolveObjectCollision obj1 obj2 pos1 pos2).2.velocity =
      obj1.mass • obj1.velocity + obj2.mass • obj2.velocity) ∧
    (m1 • (impulseNewVelocities e m1⁻¹ m2⁻¹ v1 v2 nn).1 +
      m2 • (impulseNewVelocities e m1⁻¹ m2⁻¹ v1 v2 nn).2 =
      m1 • v1 + m2 • v2) := by
  have hons : ¬o.isStatic := by
    unfold CollisionObject.isStatic
    rw [how]
    exact inv_ne_zero (ne_of_gt ho)
  have h1ns : ¬obj1.isStatic := by
    unfold CollisionObject.isStatic
    rw [h1w]
    exact inv_ne_zero (ne_of_gt h1)
  have h2ns : ¬obj2.isStatic := by
    unfold CollisionObject.isStatic
    rw [h2w]
    exact inv_ne_zero (ne_of_gt h2)
  refine ⟨?_, ?_, ?_⟩
  · simp only [calculateCollisionResponse, if_neg hons]
    by_cases hsep : 0 < Vec3.dot (p.velocity - o.velocity) n
    · rw [if_pos hsep]
    · rw [if_neg hsep]
      simp only
      rw [hpw, how]
      exact momentum_cancel _ _ _ _ _ _ (ne_of_gt hp) (ne_of_gt ho)
  · have h1' : ¬obj1.inverseMass = 0 := h1ns
    have h2' : ¬obj2.inverseMass = 0 := h2ns
    simp only [resolveObjectCollision, collisionNormal_eq]
    simp [CollisionObject.setPosition, CollisionObject.setVelocity,
      CollisionObject.isStatic, h1', h2']
    rw [h1w, h2w]
    exact momentum_cancel _ _ _ _ _ _ (ne_of_gt h1) (ne_of_gt h2)
  · unfold impulseNewVelocities
    simp only
    exact momentum_cancel _ _ _ _ _ _ (ne_of_gt hm1) (ne_of_gt hm2)

/-- C6 witness: momentum conservation instantiated at concrete mass-1 bodies
and `e = 1/2`. -/
theorem C6_momentum_conservation_witness :
    (particleA.mass •
        (calculateCollisionResponse particleA objDynamicA ⟨0, 1, 0⟩).1 +
      objDynamicA.mass •
        (calculateCollisionResponse particleA objDynamicA ⟨0, 1, 0⟩).2 =
      particleA.mass • particleA.velocity +
        objDynamicA.mass • objDynamicA.velocity) ∧
    (objDynamicC.mass • (resolveObjectCollision objDynamicC objDynamicB
        objDynamicC.position objDynamicB.position).1.velocity +
      objDynamicB.mass • (resolveObjectCollision objDynamicC objDynamicB
        objDynamicC.position objDynamicB.position).2.velocity =
      objDynamicC.mass • objDynamicC.velocity +
        objDynamicB.mass • objDynamicB.velocity) ∧
    ((1 : ℝ) • (impulseNewVelocities (1 / 2) (1 : ℝ)⁻¹ (2 : ℝ)⁻¹ ⟨1, 0, 0⟩ 0
        ⟨0, 1, 0⟩).1 +
      (2 : ℝ) • (impulseNewVelocities (1 / 2) (1 : ℝ)⁻¹ (2 : ℝ)⁻¹ ⟨1, 0, 0⟩ 0
        ⟨0, 1, 0⟩).2 =
      (1 : ℝ) • (⟨1, 0, 0⟩ : Vec3) + (2 : ℝ) • (0 : Vec3)) :=
  C6_momentum_conservation particleA objDynamicA ⟨0, 1, 0⟩ objDynamicC
    objDynamicB objDynamicC.position objDynamicB.position (1 / 2) 1 2
    ⟨1, 0, 0⟩ 0 ⟨0, 1, 0⟩
    (by norm_num [particleA]) (by norm_num [objDynamicA])
    (by norm_num [particleA]) (by norm_num [objDynamicA])
    (by norm_num [objDynamicC]) (by norm_num [objDynamicB])
    (by norm_num [objDynamicC]) (by norm_num [objDynamicB])
    (by norm_num) (by norm_num) (by norm_num) (by norm_num)

/-- Helper: a fold of steps that never change the value at index `k`
preserves it. -/
theorem foldl_update_preserves {α : Type} (g : (ℕ → ℝ) → α → (ℕ → ℝ))
    (l : List α) (f : ℕ → ℝ) (k : ℕ)
    (h : ∀ acc a, a ∈ l → g acc a k = acc k) :
    (l.foldl g f) k = f k := by
  induction l generalizing f with
  | nil => rfl
  | cons a t ih =>
    rw [List.foldl_cons,
      ih _ (fun acc b hb => h acc b (List.mem_cons_of_mem a hb))]
    exact h f a (List.mem_cons_self a t)

/-- Helper: if the fold's list splits around one element whose step writes `v`
at `k` and no later step touches `k`, the fold result at `k` is `v`. -/
theorem foldl_update_writes {α : Type} (g : (ℕ → ℝ) → α → (ℕ → ℝ))
    (l l1 l2 : List α) (a0 : α) (f : ℕ → ℝ) (k : ℕ) (v : ℝ)
    (hsplit : l = l1 ++ a0 :: l2)
    (hw : ∀ acc, g acc a0 k = v)
    (hp : ∀ acc a, a ∈ l2 → g acc a k = acc k) :
    (l.foldl g f) k = v := by
  subst hsplit
  rw [List.foldl_append, List.foldl_cons,
    foldl_update_preserves g l2 _ k hp]
  exact hw _

/-- Helper: `range R` split at an element `x < R`. -/
theorem range_split (x R : ℕ) (h : x < R) :
    List.range R = List.range x ++ x :: (List.range (R - x - 1)).map
      (fun i => x + 1 + i) := by
  conv_lhs => rw [show R = (x + 1) + (R - x - 1) by omega]
  rw [List.range_add, List.range_succ, List.append_assoc]
  rfl

/-- Helper: the linear voxel index is injective for in-range x/y coordinates
(base-R uniqueness). -/
theorem getIndex_inj (R x y z x' y' z' : ℕ) (hx : x < R) (hy : y < R)
    (hx' : x' < R) (hy' : y' < R)
    (h : getIndex x y z R = getIndex x' y' z' R) :
    x = x' ∧ y = y' ∧ z = z' := by
  unfold getIndex at h
  have hR : 0 < R := Nat.lt_of_le_of_lt (Nat.zero_le x) hx
  have e1 : ∀ a b c : ℕ, c * R * R + b * R + a = a + (b + c * R) * R := by
    intro a b c; ring
  rw [e1, e1] at h
  have hx1 : x = x' := by
    have hmod := congrArg (· % R) h
    simpa [Nat.add_mul_mod_self_right, Nat.mod_eq_of_lt hx,
      Nat.mod_eq_of_lt hx'] using hmod
  subst hx1
  have h3 : y + z * R = y' + z' * R :=
    Nat.eq_of_mul_eq_mul_right hR (by omega)
  have hy1 : y = y' := by
    have hmod := congrArg (· % R) h3
    simpa [Nat.add_mul_mod_self_right, Nat.mod_eq_of_lt hy,
      Nat.mod_eq_of_lt hy'] using hmod
  subst hy1
  exact ⟨rfl, rfl, Nat.eq_of_mul_eq_mul_right hR (by omega)⟩

/-- Helper: reading back the triple write loop of the SDF build at an in-range
voxel returns exactly the value written for that voxel. -/
theorem voxel_loop_read (R : ℕ) (val : ℕ → ℕ → ℕ → ℝ) (x y z : ℕ)
    (hx : x < R) (hy : y < R) (hz : z < R) :
    ((List.range R).foldl (fun (dz : ℕ → ℝ) (z' : ℕ) =>
      (List.range R).foldl (fun (dy : ℕ → ℝ) (y' : ℕ) =>
        (List.range R).foldl (fun (dx : ℕ → ℝ) (x' : ℕ) =>
          Function.update dx (getIndex x' y' z' R) (val x' y' z')) dy) dz)
      (fun _ => 0)) (getIndex x y z R) = val x y z := by
  have hxrow : ∀ (z' : ℕ) (acc : ℕ → ℝ),
      ((List.range R).foldl (fun (dx : ℕ → ℝ) (x' : ℕ) =>
        Function.update dx (getIndex x' y z' R) (val x' y z')) acc)
        (getIndex x y z' R) = val x y z' := by
    intro z' acc
    apply foldl_update_writes _ _ _ _ _ _ _ _ (range_split x R hx)
    · intro acc2
      exact Function.update_same _ _ _
    · intro acc2 a ha
      obtain ⟨i, hi, rfl⟩ := List.mem_map.1 ha
      have hiR : x + 1 + i < R := by
        have := List.mem_range.1 hi; omega
      apply Function.update_noteq
      intro heq
      have hcomp := getIndex_inj R x y z' _ y z' hx hy hiR hy heq
      omega
  have hyrow : ∀ (z' : ℕ) (acc : ℕ → ℝ),
      ((List.range R).foldl (fun (dy : ℕ → ℝ) (y' : ℕ) =>
        (List.range R).foldl (fun (dx : ℕ → ℝ) (x' : ℕ) =>
          Function.update dx (getIndex x' y' z' R) (val x' y' z')) dy) acc)
        (getIndex x y z' R) = val x y z' := by
    intro z' acc
    apply foldl_update_writes _ _ _ _ _ _ _ _ (range_split y R hy)
    · intro acc2
      exact hxrow z' acc2
    · intro acc2 a ha
      obtain ⟨j, hj, rfl⟩ := List.mem_map.1 ha
      have hjR : y + 1 + j < R := by
        have := List.mem_range.1 hj; omega
      apply foldl_update_preserves
      intro acc3 x' hx'
      have hx'R : x' < R := List.mem_range.1 hx'
      apply Function.update_noteq
      intro heq
      have hcomp := getIndex_inj R x y z' x' _ z' hx hy hx'R hjR heq
      omega
  apply foldl_update_writes _ _ _ _ _ _ _ _ (range_split z R hz)
  · intro acc
    exact hyrow z acc
  · intro acc a ha
    obtain ⟨m, hm, rfl⟩ := List.mem_map.1 ha
    apply foldl_update_preserves
    intro acc2 y' hy'
    have hy'R : y' < R := List.mem_range.1 hy'
    apply foldl_update_preserves
    intro acc3 x' hx'
    have hx'R : x' < R := List.mem_range.1 hx'
    apply Function.update_noteq
    intro heq
    have hcomp := getIndex_inj R x y z x' y' _ hx hy hx'R hy'R heq
    omega

/-- C5: every in-range voxel of the generated SDF stores the BVH closest
distance from the voxel's world position `gridMin + (x,y,z)·cellSize`, negated
exactly when the BVH `+X`-ray intersection count from that position is odd. -/
theorem C5_generateFromMesh_voxels (mesh : MeshData) (R x y z : ℕ)
    (hx : x < R) (hy : y < R) (hz : z < R) :
    (generateFromMesh mesh R).data (getIndex x y z R) =
      (let minB := mesh.minBounds -
        (1 / 10 : ℝ) • (mesh.maxBounds - mesh.minBounds)
       let maxB := mesh.maxBounds +
        (1 / 10 : ℝ) • (mesh.maxBounds - mesh.minBounds)
       let cellSize := ((R : ℝ) - 1)⁻¹ • (maxB - minB)
       let w := minB + Vec3.hadamard ⟨(x : ℝ), (y : ℝ), (z : ℝ)⟩ cellSize
       let bvh := BVH.build mesh.triangles
       if BVH.countIntersections w ⟨1, 0, 0⟩ mesh.triangles bvh % 2 = 1 then
         -(BVH.findClosestDistance w mesh.triangles bvh)
       else BVH.findClosestDistance w mesh.triangles bvh) := by
  simp only [generateFromMesh]
  exact voxel_loop_read R _ x y z hx hy hz

/-- C5 witness: the voxel characterisation instantiated at the concrete
two-triangle mesh, resolution 2, voxel (0,0,0). -/
theorem C5_generateFromMesh_voxels_witness :
    (0 : ℕ) < 2 ∧
    (generateFromMesh meshA 2).data (getIndex 0 0 0 2) =
      (let minB := meshA.minBounds -
        (1 / 10 : ℝ) • (meshA.maxBounds - meshA.minBounds)
       let maxB := meshA.maxBounds +
        (1 / 10 : ℝ) • (meshA.maxBounds - meshA.minBounds)
       let cellSize := (((2 : ℕ) : ℝ) - 1)⁻¹ • (maxB - minB)
       let w := minB + Vec3.hadamard ⟨((0 : ℕ) : ℝ), ((0 : ℕ) : ℝ),
         ((0 : ℕ) : ℝ)⟩ cellSize
       let bvh := BVH.build meshA.triangles
       if BVH.countIntersections w ⟨1, 0, 0⟩ meshA.triangles bvh % 2 = 1 then
         -(BVH.findClosestDistance w meshA.triangles bvh)
       else BVH.findClosestDistance w meshA.triangles bvh) :=
  ⟨by norm_num,
    C5_generateFromMesh_voxels meshA 2 0 0 0 (by norm_num) (by norm_num)
      (by norm_num)⟩

/-- Helper: a `v` line whose coordinates fail to parse contributes nothing to
the loader state. -/
theorem parse_skip_bad_vertex (pre post : List ObjLine) :
    parseObjLines (pre ++ ObjLine.vLine none :: post) =
      parseObjLines (pre ++ post) := by
  induction pre with
  | nil => rfl
  | cons a t ih =>
    cases a with
    | vLine c =>
      cases c with
      | none => simpa [parseObjLines] using ih
      | some v => simp [parseObjLines, ih]
    | fLine comps => simp [parseObjLines, ih]
    | other => simpa [parseObjLines] using ih

/-- Helper: a successful parse collects exactly the successfully parsed `v`
lines as vertices. -/
theorem parse_vertex_count :
    ∀ (lines : List ObjLine) (vs : List Vec3) (fs : List (List ℤ)),
      parseObjLines lines = some (vs, fs) → vs.length = countVertices lines := by
  intro lines
  induction lines with
  | nil =>
    intro vs fs h
    simp [parseObjLines] at h
    simp [h.1.symm, countVertices]
  | cons a t ih =>
    intro vs fs h
    cases a with
    | vLine c =>
      cases c with
      | none =>
        simp only [parseObjLines] at h
        simpa [countVertices, List.filter] using ih vs fs h
      | some v =>
        simp only [parseObjLines, Option.map_eq_some'] at h
        obtain ⟨⟨vs', fs'⟩, hp, heq⟩ := h
        have h1 : v :: vs' = vs := congrArg Prod.fst heq
        subst h1
        simp [countVertices, List.filter, ih vs' fs' hp]
    | fLine comps =>
      simp only [parseObjLines] at h
      cases hm : comps.mapM id with
      | none => rw [hm] at h; exact absurd h (by simp)
      | some ks =>
        rw [hm] at h
        simp only [Option.some_bind] at h
        by_cases hlen : 3 ≤ (ks.map (fun k => k - 1)).length
        · rw [if_pos hlen, Option.map_eq_some'] at h
          obtain ⟨⟨vs', fs'⟩, hp, heq⟩ := h
          have h1 : vs' = vs := congrArg Prod.fst heq
          subst h1
          simpa [countVertices, List.filter] using ih vs' fs' hp
        · rw [if_neg hlen] at h
          simpa [countVertices, List.filter] using ih vs fs h
    | other =>
      simp only [parseObjLines] at h
      simpa [countVertices, List.filter] using ih vs fs h

/-- Helper: a kept face line (all components parsed, at least 3 of them) ends
up in the parsed face list. -/
theorem parse_face_mem :
    ∀ (pre : List ObjLine) (post : List ObjLine) (comps : List (Option ℤ))
      (ks : List ℤ) (vs : List Vec3) (fs : List (List ℤ)),
      comps.mapM id = some ks → 3 ≤ ks.length →
      parseObjLines (pre ++ ObjLine.fLine comps :: post) = some (vs, fs) →
      ks.map (fun k => k - 1) ∈ fs := by
  intro pre
  induction pre with
  | nil =>
    intro post comps ks vs fs hm hlen h
    simp only [List.nil_append, parseObjLines, hm, Option.some_bind] at h
    rw [if_pos (by simpa using hlen), Option.map_eq_some'] at h
    obtain ⟨⟨vs', fs'⟩, hp, heq⟩ := h
    have h2 : ks.map (fun k => k - 1) :: fs' = fs := congrArg Prod.snd heq
    rw [← h2]
    exact List.mem_cons_self _ _
  | cons a t ih =>
    intro post comps ks vs fs hm hlen h
    cases a with
    | vLine c =>
      cases c with
      | none =>
        simp only [List.cons_append, parseObjLines] at h
        exact ih post comps ks vs fs hm hlen h
      | some v =>
        simp only [List.cons_append, parseObjLines, Option.map_eq_some'] at h
        obtain ⟨⟨vs', fs'⟩, hp, heq⟩ := h
        have h2 : fs' = fs := congrArg Prod.snd heq
        subst h2
        exact ih post comps ks vs' fs' hm hlen hp
    | fLine comps' =>
      simp only [List.cons_append, parseObjLines] at h
      cases hm' : comps'.mapM id with
      | none => rw [hm'] at h; exact absurd h (by simp)
      | some ks' =>
        rw [hm'] at h
        simp only [Option.some_bind] at h
        by_cases hlen' : 3 ≤ (ks'.map (fun k => k - 1)).length
        · rw [if_pos hlen', Option.map_eq_some'] at h
          obtain ⟨⟨vs', fs'⟩, hp, heq⟩ := h
          have h2 : ks'.map (fun k => k - 1) :: fs' = fs :=
            congrArg Prod.snd heq
          rw [← h2]
          exact List.mem_cons_of_mem _ (ih post comps ks vs' fs' hm hlen hp)
        · rw [if_neg hlen'] at h
          exact ih post comps ks vs fs hm hlen h
    | other =>
      simp only [List.cons_append, parseObjLines] at h
      exact ih post comps ks vs fs hm hlen h

/-- Helper: `mapM` over `Option` fails when any element fails. -/
theorem mapM_eq_none_of_mem {α β : Type} (f : α → Option β) :
    ∀ (l : List α) (a : α), a ∈ l → f a = none → l.mapM f = none := by
  intro l
  induction l with
  | nil => intro a ha; exact absurd ha (List.not_mem_nil a)
  | cons b t ih =>
    intro a ha hf
    rw [List.mapM_cons]
    rcases List.mem_cons.1 ha with rfl | ha'
    · simp [hf]
    · rw [ih a ha' hf]
      cases hb : f b with
      | none => simp
      | some v => simp

/-- Helper: the fan triangulation visits every position of the face, so one
out-of-range index makes it fail. -/
theorem fanTriangles_none (vertices : List Vec3) (face : List ℤ) (j : ℕ)
    (hj : j < face.length) (hlen : 3 ≤ face.length)
    (hbad : face.getD j 0 < 0 ∨ (vertices.length : ℤ) ≤ face.getD j 0) :
    fanTriangles vertices face = none := by
  unfold fanTriangles
  by_cases h0 : j = 0
  · subst h0
    apply mapM_eq_none_of_mem _ _ 1
    · rw [List.mem_range'_1]
      omega
    · simp only []
      split
      · rfl
      · rename_i hcond
        tauto
  · by_cases hlast : j = face.length - 1
    · subst hlast
      apply mapM_eq_none_of_mem _ _ (face.length - 2)
      · rw [List.mem_range'_1]
        omega
      · simp only []
        rw [show face.length - 2 + 1 = face.length - 1 from by omega]
        split
        · rfl
        · rename_i hcond
          tauto
    · apply mapM_eq_none_of_mem _ _ j
      · rw [List.mem_range'_1]
        omega
      · simp only []
        split
        · rfl
        · rename_i hcond
          tauto

/-- Helper: one failing face makes the whole face conversion fail. -/
theorem facesToTriangles_none (vertices : List Vec3) :
    ∀ (fs : List (List ℤ)) (face : List ℤ), face ∈ fs →
      fanTriangles vertices face = none →
      facesToTriangles vertices fs = none := by
  intro fs
  induction fs with
  | nil => intro face hf _; exact absurd hf (List.not_mem_nil _)
  | cons g t ih =>
    intro face hf hnone
    rcases List.mem_cons.1 hf with rfl | hf'
    · simp [facesToTriangles, hnone]
    · cases hg : fanTriangles vertices g with
      | none => simp [facesToTriangles, hg]
      | some tris => simp [facesToTriangles, hg, ih face hf' hnone]

/-- C9: a `v` line whose coordinates fail to parse is skipped without
aborting the load (the result is as if the line were absent), and a face
referencing a vertex index outside `[1, #vertices]` makes `loadOBJ` fail. -/
theorem C9_loadOBJ_error_handling :
    (∀ pre post : List ObjLine,
      loadOBJ (pre ++ ObjLine.vLine none :: post) = loadOBJ (pre ++ post)) ∧
    (∀ (pre post : List ObjLine) (comps : List (Option ℤ)) (ks : List ℤ),
      comps.mapM id = some ks → 3 ≤ ks.length →
      (∃ k ∈ ks, k - 1 < 0 ∨
        (countVertices (pre ++ ObjLine.fLine comps :: post) : ℤ) ≤ k - 1) →
      loadOBJ (pre ++ ObjLine.fLine comps :: post) = none) := by
  constructor
  · intro pre post
    unfold loadOBJ
    rw [parse_skip_bad_vertex]
  · intro pre post comps ks hm hlen hbad
    obtain ⟨k, hk, hout⟩ := hbad
    obtain ⟨j, hj, hkj⟩ := List.mem_iff_getElem.1 hk
    unfold loadOBJ
    cases hp : parseObjLines (pre ++ ObjLine.fLine comps :: post) with
    | none => rfl
    | some vf =>
      obtain ⟨vs, fs⟩ := vf
      have hmem : ks.map (fun k => k - 1) ∈ fs :=
        parse_face_mem pre post comps ks vs fs hm hlen hp
      have hcount : vs.length =
          countVertices (pre ++ ObjLine.fLine comps :: post) :=
        parse_vertex_count _ vs fs hp
      apply facesToTriangles_none vs fs _ hmem
      have hface : (ks.map (fun k => k - 1)).getD j 0 = k - 1 := by
        rw [List.getD_eq_getElem _ _ (by simpa using hj),
          List.getElem_map, hkj]
      apply fanTriangles_none vs _ j (by simpa using hj) (by simpa using hlen)
      rw [hface, hcount]
      exact hout

/-- C9 witness: the two statements at concrete line lists — a malformed
vertex line after a good one is dropped, and a 3-vertex face referencing
vertex 1 of an empty vertex list fails the load. -/
theorem C9_loadOBJ_error_handling_witness :
    loadOBJ [ObjLine.vLine (some ⟨1, 2, 3⟩), ObjLine.vLine none] =
      loadOBJ [ObjLine.vLine (some ⟨1, 2, 3⟩)] ∧
    loadOBJ [ObjLine.fLine [some 1, some 2, some 6]] = none :=
  ⟨C9_loadOBJ_error_handling.1 [ObjLine.vLine (some ⟨1, 2, 3⟩)] [],
    C9_loadOBJ_error_handling.2 [] [] [some 1, some 2, some 6] [1, 2, 6] rfl
      (by norm_num)
      ⟨1, by norm_num,
        Or.inr (by
          have h0 : countVertices
              ([] ++ [ObjLine.fLine [some 1, some 2, some 6]]) = 0 := rfl
          rw [h0]
          norm_num)⟩⟩

/-- Helper: square-root evaluation at 64. -/
theorem sqrt_lit_64 : Real.sqrt 64 = 8 := by
  rw [show (64 : ℝ) = 8 ^ 2 by norm_num, Real.sqrt_sq (by norm_num)]

/-- Helper: square-root evaluation at 25. -/
theorem sqrt_lit_25 : Real.sqrt 25 = 5 := by
  rw [show (25 : ℝ) = 5 ^ 2 by norm_num, Real.sqrt_sq (by norm_num)]

/-- Helper: square-root evaluation at 169. -/
theorem sqrt_lit_169 : Real.sqrt 169 = 13 := by
  rw [show (169 : ℝ) = 13 ^ 2 by norm_num, Real.sqrt_sq (by norm_num)]

/-- Helper: square-root evaluation at 100. -/
theorem sqrt_lit_100 : Real.sqrt 100 = 10 := by
  rw [show (100 : ℝ) = 10 ^ 2 by norm_num, Real.sqrt_sq (by norm_num)]

/-- Helper: the barycentric point-triangle distance from the origin to
`triTenth` is exactly 1/10 (interior closest point `(1/10,0,0)`). -/
theorem eval_dist_triTenth : pointToTriangleDistance 0 triTenth = 1 / 10 := by
  norm_num [pointToTriangleDistance, triTenth, Vec3.dot, Vec3.length, clampR,
    sqrt_lit_100]

/-- Helper: the origin is a vertex of `triThin`, so its distance is 0. -/
theorem eval_dist_triThin : pointToTriangleDistance 0 triThin = 0 := by
  norm_num [pointToTriangleDistance, triThin, Vec3.dot, Vec3.length, clampR,
    Real.sqrt_zero]

/-- Helper: the AABB of the two-triangle set. -/
theorem eval_bounds : nodeBounds [triTenth, triThin] [0, 1] =
    (⟨0, -5, -1⟩, ⟨12, 5, 2⟩) := by
  norm_num [nodeBounds, Vec3.compMin, Vec3.compMax, triTenth, triThin,
    floatMax, List.getD]


/-- Helper: with two triangles the BVH build stops at a single leaf holding
both indices. -/
theorem eval_build : BVH.build [triTenth, triThin] =
    ⟨some (BVHNode.leaf ⟨0, -5, -1⟩ ⟨12, 5, 2⟩ [0, 1])⟩ := by
  unfold BVH.build
  rw [show List.range ([triTenth, triThin].length) = [0, 1] from rfl]
  rw [buildRecursive]
  norm_num [eval_bounds]

/-- Helper: on the two-triangle input the query processes `triTenth` first
(distance 1/10), then quick-rejects `triThin` because its bounding-sphere
estimate `8 − 0.6·13 = 0.2` is not below the running best `0.1`, and returns
`1/10` although `triThin` contains the query point. -/
theorem eval_query : BVH.findClosestDistance 0 [triTenth, triThin]
    (BVH.build [triTenth, triThin]) = 1 / 10 := by
  rw [eval_build]
  unfold BVH.findClosestDistance
  simp only [findClosestDistanceRecursive]
  norm_num [pointToAABBDistance, Vec3.clampV, Vec3.compMin, Vec3.compMax,
    Vec3.length, Vec3.dot, triTenth, triThin, List.getD, floatMax,
    eval_dist_triTenth, eval_dist_triThin, sqrt_lit_64, sqrt_lit_25,
    sqrt_lit_169, sqrt_lit_100, Real.sqrt_zero]
  have hA : pointToTriangleDistance 0
      ⟨⟨1 / 10, 4, -1⟩, ⟨1 / 10, -4, -1⟩, ⟨1 / 10, 0, 2⟩, ⟨-1, 0, 0⟩⟩ =
      1 / 10 := eval_dist_triTenth
  have hB : pointToTriangleDistance 0
      ⟨⟨0, 0, 0⟩, ⟨12, 5, 0⟩, ⟨12, -5, 0⟩, ⟨0, 0, -1⟩⟩ = 0 :=
    eval_dist_triThin
  rw [hA, hB]
  norm_num


/-- C1: on a non-empty set of non-degenerate triangles (both cross products
are non-zero), `BVH.findClosestDistance` returns 1/10 while the brute-force
minimum of the point-to-triangle distances is 0: the radius-`0.6·maxEdge`
bounding sphere does not cover a thin triangle (vertices lie up to
`(2/3)·maxEdge` from the centroid), so the quick reject skips the closest
triangle. -/
theorem C1_sphere_reject_miss :
    Vec3.cross (triTenth.v1 - triTenth.v0) (triTenth.v2 - triTenth.v0) ≠ 0 ∧
    Vec3.cross (triThin.v1 - triThin.v0) (triThin.v2 - triThin.v0) ≠ 0 ∧
    BVH.findClosestDistance 0 [triTenth, triThin]
      (BVH.build [triTenth, triThin]) = 1 / 10 ∧
    bruteForceMinDistance 0 [triTenth, triThin] = 0 := by
  refine ⟨?_, ?_, eval_query, ?_⟩
  · intro h
    have hx := congrArg Vec3.x h
    norm_num [Vec3.cross, triTenth] at hx
  · intro h
    have hz := congrArg Vec3.z h
    norm_num [Vec3.cross, triThin] at hz
  · norm_num [bruteForceMinDistance, eval_dist_triTenth, eval_dist_triThin,
      floatMax]

/-- C10 witness: the characterisation applied to concrete objects — a valid
object is appended, an invalid one is discarded. -/
theorem C10_addCollisionObject_valid_witness :
    (addCollisionObject simStateA (some objDynamicA)).collisionObjects =
      simStateA.collisionObjects ++ [objDynamicA] ∧
    addCollisionObject simStateA (some objInvalidA) = simStateA :=
  ⟨(C10_addCollisionObject_valid simStateA objDynamicA none).2.1 rfl,
    (C10_addCollisionObject_valid simStateA objInvalidA none).2.2.1 rfl⟩

end
